import Mathlib

/-!
Verification of the Resumer.ai resume analyzer (src/app.py) against its
natural-language specification.

The program has two core operations plus a UI flow:
- `extract_text_from_pdf`: reads a PDF stream, concatenates per-page text
  with a trailing newline per page, strips the result; every exception is
  caught, an error message is shown, and the empty string is returned.
- `analyze_resume`: builds a fixed two-part chat prompt from the resume
  text and job description, invokes a structured-output model constrained
  to the `ResumeAnalysis` schema, and propagates any failure.
- `main`: gates the analysis behind presence checks for the API key, the
  uploaded file, the job description, and non-empty extracted text, and
  serializes the result into a downloadable plain-text report.

The embedding models the PDF parser and the hosted model as oracles
(an `Option (List String)` page stream and a function argument), and
everything else directly from the source.
-/

namespace ResumerAI

/-- Whitespace characters stripped by Python str.strip with no argument
(the ASCII whitespace set; the texts handled by this program contain no
other whitespace). -/
def pyIsSpace (c : Char) : Bool :=
  c = ' ' || c = '\t' || c = '\n' || c = '\x0b' || c = '\x0c' || c = '\r'

/-- Characters of a string after removing leading whitespace
(the left half of Python str.strip). -/
def lstripChars (l : List Char) : List Char :=
  l.dropWhile pyIsSpace

/-- Characters of a string after removing trailing whitespace
(the right half of Python str.strip). -/
def rstripChars (l : List Char) : List Char :=
  (l.reverse.dropWhile pyIsSpace).reverse

/-- Python str.strip with no argument: remove leading and trailing
whitespace. -/
def pyStrip (s : String) : String :=
  ⟨lstripChars (rstripChars s.data)⟩

/-- Python chr(10).join, i.e. joining a list of strings with a newline
between consecutive elements. This is both the join used in the report
f-string of src/app.py and the page-joining operation named by the spec
contract for the ingestor. -/
def joinNL : List String → String
  | [] => ""
  | [x] => x
  | x :: y :: xs => x ++ "\n" ++ joinNL (y :: xs)

/-- The page-concatenation loop of extract_text_from_pdf (src/app.py lines
72-75): text_content starts empty and each page appends its extracted text
plus a newline. -/
def combinePages (pages : List String) : String :=
  pages.foldl (fun acc p => acc ++ (p ++ "\n")) ""

/-- Outcome of the ingestor: the string returned to the caller, plus
whether the st.error side effect fired (the only trace of a read failure,
src/app.py line 79). -/
structure ExtractOutcome where
  text : String
  errorShown : Bool
  deriving DecidableEq, Repr

/-- Embedding of extract_text_from_pdf (src/app.py lines 60-80). The PDF
parser oracle is the input: `some pages` when PyPDF2 opens the stream and
every page's extract_text call succeeds (yielding those page texts),
`none` when any exception is raised. On success the page texts are
concatenated each with a trailing newline and the result is stripped; on
failure the exception is caught, an error is displayed, and the empty
string is returned. -/
def extract_text_from_pdf (stream : Option (List String)) : ExtractOutcome :=
  match stream with
  | some pages => ⟨pyStrip (combinePages pages), false⟩
  | none => ⟨"", true⟩

/-! Character-level helpers relating the code's page loop to the spec's
newline join. -/

/-- Character-level strip, combining both halves. -/
def stripChars (l : List Char) : List Char :=
  lstripChars (rstripChars l)

/-- Removing a trailing newline does not change the stripped value. -/
theorem stripChars_append_newline (l : List Char) :
    stripChars (l ++ ['\n']) = stripChars l := by
  unfold stripChars rstripChars
  simp [List.dropWhile, pyIsSpace]

/-- A trailing newline disappears under pyStrip. -/
theorem pyStrip_append_newline (s : String) :
    pyStrip (s ++ "\n") = pyStrip s := by
  unfold pyStrip
  have h : (s ++ "\n").data = s.data ++ ['\n'] := String.data_append s "\n"
  rw [show lstripChars (rstripChars (s ++ "\x0a").data)
        = stripChars ((s.data) ++ ['\x0a']) from by rw [h]; rfl]
  rw [stripChars_append_newline]
  rfl

/-- The fold in combinePages, generalized over its accumulator. -/
theorem combinePages_foldl (pages : List String) (a : String) :
    pages.foldl (fun acc p => acc ++ (p ++ "\n")) a
      = a ++ pages.foldl (fun acc p => acc ++ (p ++ "\n")) "" := by
  induction pages generalizing a with
  | nil => simp [List.foldl]
  | cons p ps ih =>
    simp only [List.foldl]
    rw [ih (a ++ (p ++ "\n")), ih ("" ++ (p ++ "\n"))]
    apply String.ext
    simp [String.data_append, List.append_assoc]

/-- Unfolding combinePages one page at a time. -/
theorem combinePages_cons (p : String) (ps : List String) :
    combinePages (p :: ps) = (p ++ "\n") ++ combinePages ps := by
  unfold combinePages
  simp only [List.foldl]
  rw [combinePages_foldl ps ("" ++ (p ++ "\n"))]
  apply String.ext
  simp [String.data_append]

/-- On a non-empty page list, the code's loop output is the newline join
plus one trailing newline. -/
theorem combinePages_eq_joinNL (p : String) (ps : List String) :
    combinePages (p :: ps) = joinNL (p :: ps) ++ "\n" := by
  induction ps generalizing p with
  | nil =>
    rw [combinePages_cons]
    simp [combinePages, joinNL]
  | cons q qs ih =>
    rw [combinePages_cons, ih q]
    show (p ++ "\n") ++ (joinNL (q :: qs) ++ "\n")
        = (p ++ "\n" ++ joinNL (q :: qs)) ++ "\n"
    apply String.ext
    simp [String.data_append, List.append_assoc]

/-- The stripped loop output coincides with the stripped newline join for
every page list. -/
theorem strip_combinePages_eq_strip_joinNL (pages : List String) :
    pyStrip (combinePages pages) = pyStrip (joinNL pages) := by
  cases pages with
  | nil => rfl
  | cons p ps => rw [combinePages_eq_joinNL, pyStrip_append_newline]

/-! The ResumeAnalysis schema and its validation (src/app.py lines 29-52).
Pydantic validates at construction: match_percentage must lie in [0, 100]
(ge=0, le=100) and missing_keywords may hold at most 20 entries
(max_length=20); all five fields are required. -/

/-- Validated structured output of the analysis (the Pydantic model
ResumeAnalysis, src/app.py lines 29-52). -/
structure ResumeAnalysis where
  match_percentage : Int
  missing_keywords : List String
  strengths : String
  improvements : String
  overall_assessment : String
  deriving DecidableEq, Repr

/-- Raw model output before Pydantic validation: each field may be absent
(missing from the returned JSON) and match_percentage is an arbitrary
integer. -/
structure RawAnalysis where
  match_percentage : Option Int
  missing_keywords : Option (List String)
  strengths : Option String
  improvements : Option String
  overall_assessment : Option String
  deriving DecidableEq, Repr

/-- Pydantic validation of the raw model output against the ResumeAnalysis
schema: all five fields present, 0 ≤ match_percentage ≤ 100, and at most
20 missing keywords; any violation raises (here: none). -/
def validateAnalysis (raw : RawAnalysis) : Option ResumeAnalysis :=
  match raw.match_percentage, raw.missing_keywords, raw.strengths,
      raw.improvements, raw.overall_assessment with
  | some mp, some mk, some s, some i, some o =>
      if 0 ≤ mp ∧ mp ≤ 100 ∧ mk.length ≤ 20 then
        some ⟨mp, mk, s, i, o⟩
      else
        none
  | _, _, _, _, _ => none

/-! The prompt of analyze_resume (src/app.py lines 118-172): a fixed
system message and a human message with the job description and resume
text interpolated into a fixed template. -/

/-- A two-part chat prompt: one system message, one human message. -/
structure ChatPrompt where
  system : String
  human : String
  deriving DecidableEq, Repr

/-- The system message literal (src/app.py lines 122-130). -/
def systemMessage : String :=
  "You are an expert Application Tracking System (ATS) with deep knowledge of:\n- Software Engineering\n- Data Science & Machine Learning\n- Data Analysis & Business Intelligence\n- Full Stack Development\n- Cloud Computing & DevOps\n- Big Data Engineering\n\nYour task is to provide thorough, accurate, and actionable resume analysis."

/-- The human template up to the job_description interpolation point
(src/app.py lines 134-137). -/
def humanPart1 : String :=
  "Analyze the following resume against the job description.\n\nJOB DESCRIPTION:\n"

/-- The human template between the job_description and resume_text
interpolation points (src/app.py lines 138-140). -/
def humanPart2 : String := "\n\nRESUME:\n"

/-- The human template between the resume_text interpolation point and the
first numbered request (src/app.py lines 141-143). -/
def humanIntro : String := "\n\nProvide a comprehensive analysis with:\n\n"

/-- Numbered request 1 of the human template (src/app.py lines 144-146). -/
def humanReq1 : String :=
  "1. **Match Percentage** (0-100): How well does this resume match the job requirements?\n   - Consider skills, experience, education, and achievements\n   - Be realistic and fair in your assessment\n\n"

/-- Numbered request 2 of the human template (src/app.py lines 148-152). -/
def humanReq2 : String :=
  "2. **Missing Keywords**: Identify up to 20 critical keywords/skills from the job description that are missing or underrepresented in the resume. Focus on:\n   - Technical skills\n   - Tools and technologies\n   - Relevant certifications\n   - Industry-specific terminology\n\n"

/-- Numbered request 3 of the human template (src/app.py lines 154-158). -/
def humanReq3 : String :=
  "3. **Strengths**: Explain in detail why this candidate IS a good fit:\n   - Matching skills and experience\n   - Relevant projects or achievements\n   - Educational background\n   - Transferable skills\n\n"

/-- Numbered request 4 of the human template (src/app.py lines 160-165). -/
def humanReq4 : String :=
  "4. **Improvements**: Provide specific, actionable recommendations:\n   - How to better highlight existing relevant experience\n   - Skills or certifications to acquire\n   - Resume formatting or presentation improvements\n   - Keywords to add for better ATS optimization\n   - Ways to quantify achievements\n\n"

/-- Numbered request 5 of the human template (src/app.py line 167). -/
def humanReq5 : String :=
  "5. **Overall Assessment**: Provide a brief 2-3 sentence summary of the candidate\x27s overall fit.\n\n"

/-- The closing reminder of the human template (src/app.py line 169). -/
def humanClosing : String :=
  "Remember: The job market is highly competitive. Provide honest, constructive feedback that will genuinely help improve the candidate\x27s chances."

/-- The human template after the resume_text interpolation point
(src/app.py lines 141-169): the intro, the five numbered requests, and
the closing reminder, in source order. -/
def humanPart3 : String :=
  humanIntro ++ humanReq1 ++ humanReq2 ++ humanReq3 ++ humanReq4 ++ humanReq5
    ++ humanClosing

/-- The formatted prompt the chain hands to the model: the fixed system
message, and the human template with the job description and resume text
substituted for their placeholders. -/
def buildPrompt (resume_text job_description : String) : ChatPrompt :=
  ⟨systemMessage,
   humanPart1 ++ job_description ++ humanPart2 ++ resume_text ++ humanPart3⟩

/-! The model call of analyze_resume (src/app.py lines 83-185). The hosted
model is an oracle taking the api_key and the formatted prompt; it either
raises (network, auth, quota, unparseable output — any exception from
invoke) or returns a raw structured output that Pydantic then validates. -/

/-- Outcome of one invocation of the structured-output chain, before
schema validation. -/
inductive ModelResponse where
  | failure (msg : String)
  | output (raw : RawAnalysis)
  deriving DecidableEq, Repr

/-- Typed failure of the analysis operation: the exception propagated by
analyze_resume after displaying st.error (src/app.py lines 183-185). -/
inductive AnalysisError where
  | requestFailed (msg : String)
  | schemaViolation
  deriving DecidableEq, Repr

/-- Processing of one model response: a raised exception propagates, and
an output failing Pydantic validation raises too — only a fully validated
ResumeAnalysis is returned. -/
def handleResponse (resp : ModelResponse) : Except AnalysisError ResumeAnalysis :=
  match resp with
  | .failure msg => .error (.requestFailed msg)
  | .output raw =>
      match validateAnalysis raw with
      | some r => .ok r
      | none => .error .schemaViolation

/-- Embedding of analyze_resume (src/app.py lines 83-185): build the
prompt from the two input strings, invoke the model on it, and hand the
response to validation; there is no input check of any kind before the
call. -/
def analyze_resume (model : String → ChatPrompt → ModelResponse)
    (resume_text job_description api_key : String) :
    Except AnalysisError ResumeAnalysis :=
  handleResponse (model api_key (buildPrompt resume_text job_description))

/-! The downloadable report (src/app.py lines 452-472): an f-string over
the analysis result. -/

/-- The report f-string of src/app.py lines 452-472, exactly: it opens
with a newline, renders the five fields in fixed order, and closes with a
generator footer and a trailing newline. -/
def report (r : ResumeAnalysis) : String :=
  "\nRESUME ANALYSIS REPORT\n======================\n\nMatch Score: "
    ++ toString r.match_percentage
    ++ "%\n\nMISSING KEYWORDS:\n"
    ++ joinNL (r.missing_keywords.map (fun k => "- " ++ k))
    ++ "\n\nSTRENGTHS:\n" ++ r.strengths
    ++ "\n\nIMPROVEMENTS:\n" ++ r.improvements
    ++ "\n\nOVERALL ASSESSMENT:\n" ++ r.overall_assessment
    ++ "\n\nGenerated by Resume Analyzer AI\nPowered by Google Gemini 2.0 & LangChain\n"

/-- Modelled from the spec: the literal report template of spec section 6
(Report export), with the five fields substituted in fixed order and
nothing else — no leading newline and no footer. Used to compare the
code's report against the spec's template. -/
def specReport (r : ResumeAnalysis) : String :=
  "RESUME ANALYSIS REPORT\n======================\n\nMatch Score: "
    ++ toString r.match_percentage
    ++ "%\n\nMISSING KEYWORDS:\n"
    ++ joinNL (r.missing_keywords.map (fun k => "- " ++ k))
    ++ "\n\nSTRENGTHS:\n" ++ r.strengths
    ++ "\n\nIMPROVEMENTS:\n" ++ r.improvements
    ++ "\n\nOVERALL ASSESSMENT:\n" ++ r.overall_assessment

/-! The analysis-button flow of main (src/app.py lines 341-373): the
validation gates crossed before analyze_resume is invoked. -/

/-- Terminal outcome of the validation flow: one of the four user-facing
error stops, or the invocation of analyze_resume with the given arguments. -/
inductive FlowOutcome where
  | errMissingApiKey
  | errMissingFile
  | errMissingJobDescription
  | errEmptyResumeText
  | analyzed (resume_text job_description api_key : String)
  deriving DecidableEq, Repr

/-- Embedding of the analysis logic of main (src/app.py lines 341-373),
after the button press: empty api_key, missing upload, empty job
description and empty extracted text each stop the flow with an error
(Python truthiness: a string is falsy exactly when empty, the upload is
falsy when absent); only past all four gates is analyze_resume invoked.
The upload is `none` when no file was chosen, `some stream` the PDF
parser oracle for the chosen file. -/
def mainFlow (api_key : String) (uploaded_file : Option (Option (List String)))
    (job_description : String) : FlowOutcome :=
  if api_key = "" then .errMissingApiKey
  else match uploaded_file with
  | none => .errMissingFile
  | some stream =>
    if job_description = "" then .errMissingJobDescription
    else
      let resume_text := (extract_text_from_pdf stream).text
      if resume_text = "" then .errEmptyResumeText
      else .analyzed resume_text job_description api_key

/-! Helper lemmas shared by the claim theorems. -/

/-- Validation only accepts results satisfying the schema bounds. -/
theorem validate_bounds (raw : RawAnalysis) (a : ResumeAnalysis)
    (h : validateAnalysis raw = some a) :
    0 ≤ a.match_percentage ∧ a.match_percentage ≤ 100
      ∧ a.missing_keywords.length ≤ 20 := by
  obtain ⟨mp, mk, s, i, o⟩ := raw
  cases mp <;> cases mk <;> cases s <;> cases i <;> cases o <;>
    simp only [validateAnalysis] at h <;>
    first
    | exact Option.noConfusion h
    | (split at h
       · rename_i hc
         cases h
         exact ⟨hc.1, hc.2.1, hc.2.2⟩
       · exact Option.noConfusion h)

/-- An out-of-range match percentage fails validation. -/
theorem validate_none_of_out_of_range (raw : RawAnalysis) (mp : Int)
    (hmp : raw.match_percentage = some mp) (hout : mp < 0 ∨ 100 < mp) :
    validateAnalysis raw = none := by
  obtain ⟨mp0, mk, s, i, o⟩ := raw
  cases mp0 <;> cases mk <;> cases s <;> cases i <;> cases o <;>
    simp only [validateAnalysis] <;>
    first
    | rfl
    | (injection hmp with he
       subst he
       split
       · rename_i hc
         obtain ⟨h1, h2, _⟩ := hc
         omega
       · rfl)

/-- A missing required field fails validation. -/
theorem validate_none_of_missing (raw : RawAnalysis)
    (hmiss : raw.match_percentage = none ∨ raw.missing_keywords = none
      ∨ raw.strengths = none ∨ raw.improvements = none
      ∨ raw.overall_assessment = none) :
    validateAnalysis raw = none := by
  obtain ⟨mp, mk, s, i, o⟩ := raw
  cases mp <;> cases mk <;> cases s <;> cases i <;> cases o <;>
    simp only [validateAnalysis] <;>
    first
    | rfl
    | simp at hmiss

/-- The page loop on all-empty pages yields only newline characters. -/
theorem combinePages_all_empty (pages : List String)
    (h : ∀ p ∈ pages, p = "") :
    (combinePages pages).data = List.replicate pages.length '\n' := by
  induction pages with
  | nil => rfl
  | cons p ps ih =>
    rw [combinePages_cons]
    have hp : p = "" := h p (by simp)
    subst hp
    have hnl : (("" : String) ++ "\n").data = ['\n'] := rfl
    rw [String.data_append, hnl, ih (fun q hq => h q (by simp [hq]))]
    rfl

/-- Leading whitespace removal consumes a run of newlines entirely. -/
theorem dropWhile_replicate_newline (n : Nat) :
    List.dropWhile pyIsSpace (List.replicate n '\n') = [] := by
  induction n with
  | zero => rfl
  | succ n ih => simp [List.replicate, List.dropWhile, pyIsSpace, ih]

/-- A string of newlines strips to the empty string. -/
theorem pyStrip_replicate_newline (s : String) (n : Nat)
    (h : s.data = List.replicate n '\n') :
    pyStrip s = "" := by
  unfold pyStrip rstripChars lstripChars
  rw [h, List.reverse_replicate, dropWhile_replicate_newline]
  rfl

/-- The header literal of the report splits off its leading newline. -/
theorem reportHeader_data :
    ("\nRESUME ANALYSIS REPORT\n======================\n\nMatch Score: " : String).data
      = '\n' :: ("RESUME ANALYSIS REPORT\n======================\n\nMatch Score: " : String).data := by
  decide

/-! Claim theorems. -/

/-- Claim C1, as stated, is false on the code: for an unreadable stream the
ingestor does not fail with a typed DocumentReadError — it catches the
exception and returns the empty string, the very value a readable PDF
with no extractable text returns, so the two outcomes carry the same
string value and are not distinguished at the type level. Concretely, the
unreadable stream (none) and a readable one-empty-page PDF (some [""])
both return the text "". -/
theorem C1_counterexample :
    (extract_text_from_pdf none).text = ""
      ∧ (extract_text_from_pdf (some [""])).text = ""
      ∧ (extract_text_from_pdf none).text
          = (extract_text_from_pdf (some [""])).text := by
  decide

/-- Claim C1 amended: for every byte stream that is not a readable PDF the
ingestor catches the exception, displays a user-facing error message (the
errorShown flag), and returns the empty string; a successful parse never
shows that message. The failure is signalled only through the displayed
message, not through the returned value or its type. -/
theorem C1_amended_no_typed_error :
    extract_text_from_pdf none = ⟨"", true⟩
      ∧ ∀ pages, (extract_text_from_pdf (some pages)).errorShown = false :=
  ⟨rfl, fun _ => rfl⟩

/-- A concrete analysis result: matchPercentage 72 and two missing
keywords, as in the spec example for report serialization. -/
def exAnalysis : ResumeAnalysis :=
  ⟨72, ["Docker", "Kubernetes"], "Strong Python background.",
   "Add cloud experience.", "Good fit overall."⟩

/-- Claim C2, as stated, is false on the code: at the known AnalysisResult
with matchPercentage 72 and missingKeywords Docker, Kubernetes, the
serialized report is not exactly the claimed template — the code's output
opens with an extra newline and closes with a generator footer. -/
theorem C2_counterexample : report exAnalysis ≠ specReport exAnalysis := by
  decide

/-- Claim C2 amended: report serialization is a pure deterministic function
of the AnalysisResult, and for every result the output is exactly one
leading newline, then the spec template with the five fields substituted
in the fixed order, then the footer lines naming the generator and a
trailing newline. -/
theorem C2_amended_exact_output (r : ResumeAnalysis) :
    report r = "\n" ++ specReport r
      ++ "\n\nGenerated by Resume Analyzer AI\nPowered by Google Gemini 2.0 & LangChain\n" := by
  apply String.ext
  have hnl : ("\n" : String).data = ['\n'] := rfl
  simp only [report, specReport, String.data_append, reportHeader_data, hnl,
    List.append_assoc, List.cons_append, List.nil_append, List.singleton_append]

/-- A raw model output that passes validation. -/
def rawDemo : RawAnalysis :=
  ⟨some 72, some ["Docker", "Kubernetes"], some "Strong fit.",
   some "Add cloud skills.", some "Solid candidate."⟩

/-- The validated result of rawDemo. -/
def analysisDemo : ResumeAnalysis :=
  ⟨72, ["Docker", "Kubernetes"], "Strong fit.", "Add cloud skills.",
   "Solid candidate."⟩

/-- Claim C3: every ResumeAnalysis accepted by schema validation has a
match percentage within 0..100 and at most 20 missing keywords. -/
theorem C3_schema_invariants (raw : RawAnalysis) (a : ResumeAnalysis)
    (h : validateAnalysis raw = some a) :
    0 ≤ a.match_percentage ∧ a.match_percentage ≤ 100
      ∧ a.missing_keywords.length ≤ 20 :=
  validate_bounds raw a h

/-- Witness for C3: the invariants hold at a concrete validated result. -/
theorem C3_schema_invariants_witness :
    0 ≤ analysisDemo.match_percentage ∧ analysisDemo.match_percentage ≤ 100
      ∧ analysisDemo.missing_keywords.length ≤ 20 :=
  C3_schema_invariants rawDemo analysisDemo (by decide)

/-- Every successful handleResponse comes from a validated output. -/
theorem handleResponse_ok (resp : ModelResponse) (a : ResumeAnalysis)
    (h : handleResponse resp = Except.ok a) :
    ∃ raw, resp = ModelResponse.output raw ∧ validateAnalysis raw = some a := by
  cases resp with
  | failure msg => simp [handleResponse] at h
  | output raw =>
    simp only [handleResponse] at h
    cases hval : validateAnalysis raw with
    | none => rw [hval] at h; exact Except.noConfusion h
    | some v => rw [hval] at h; cases h; exact ⟨raw, rfl, hval⟩

/-- Claim C4: the analyze operation either returns a complete, schema-valid
result or fails with a typed error: an ok result always satisfies the
schema bounds, a raised model call propagates as an error, and an output
with a missing required field or an out-of-range match percentage is
rejected, never passed through. -/
theorem C4_validate_or_fail (model : String → ChatPrompt → ModelResponse)
    (resume_text job_description api_key : String) :
    (∀ a, analyze_resume model resume_text job_description api_key
          = Except.ok a →
        0 ≤ a.match_percentage ∧ a.match_percentage ≤ 100
          ∧ a.missing_keywords.length ≤ 20)
    ∧ (∀ msg, model api_key (buildPrompt resume_text job_description)
          = ModelResponse.failure msg →
        analyze_resume model resume_text job_description api_key
          = Except.error (AnalysisError.requestFailed msg))
    ∧ (∀ raw, model api_key (buildPrompt resume_text job_description)
          = ModelResponse.output raw →
        (raw.match_percentage = none ∨ raw.missing_keywords = none
            ∨ raw.strengths = none ∨ raw.improvements = none
            ∨ raw.overall_assessment = none) →
        analyze_resume model resume_text job_description api_key
          = Except.error AnalysisError.schemaViolation)
    ∧ (∀ raw mp, model api_key (buildPrompt resume_text job_description)
          = ModelResponse.output raw →
        raw.match_percentage = some mp → (mp < 0 ∨ 100 < mp) →
        analyze_resume model resume_text job_description api_key
          = Except.error AnalysisError.schemaViolation) := by
  refine ⟨?_, ?_, ?_, ?_⟩
  · intro a ha
    obtain ⟨raw, _, hval⟩ := handleResponse_ok _ a ha
    exact validate_bounds raw a hval
  · intro msg hres
    show handleResponse _ = _
    rw [hres]
    rfl
  · intro raw hres hmiss
    show handleResponse _ = _
    rw [hres]
    simp [handleResponse, validate_none_of_missing raw hmiss]
  · intro raw mp hres hmp hout
    show handleResponse _ = _
    rw [hres]
    simp [handleResponse, validate_none_of_out_of_range raw mp hmp hout]

/-- A raw model output whose match percentage is out of range. -/
def rawOutOfRange : RawAnalysis :=
  ⟨some 150, some [], some "str", some "imp", some "ova"⟩

/-- A model oracle that always returns the out-of-range output. -/
def modelOutOfRange : String → ChatPrompt → ModelResponse :=
  fun _ _ => ModelResponse.output rawOutOfRange

/-- Witness for C4: a model responding with match percentage 150 makes
analyze fail with a schema violation. -/
theorem C4_validate_or_fail_witness :
    analyze_resume modelOutOfRange "resume" "job" "key"
      = Except.error AnalysisError.schemaViolation :=
  (C4_validate_or_fail modelOutOfRange "resume" "job" "key").2.2.2
    rawOutOfRange 150 rfl rfl (by decide)

/-- Claim C5: on every well-formed PDF the ingestor's output is the pages'
extracted texts joined by a newline, with leading and trailing whitespace
trimmed from the combined result — and no error message is shown. -/
theorem C5_pages_joined_and_trimmed (pages : List String) :
    extract_text_from_pdf (some pages) = ⟨pyStrip (joinNL pages), false⟩ := by
  show ExtractOutcome.mk (pyStrip (combinePages pages)) false = _
  rw [strip_combinePages_eq_strip_joinNL]

/-- Claim C6: a PDF that parses but yields zero extractable text on every
page returns the empty string from the ingestor, with no failure and no
error message. -/
theorem C6_empty_text_no_failure (pages : List String)
    (h : ∀ p ∈ pages, p = "") :
    extract_text_from_pdf (some pages) = ⟨"", false⟩ := by
  show ExtractOutcome.mk (pyStrip (combinePages pages)) false = _
  rw [pyStrip_replicate_newline (combinePages pages) pages.length
    (combinePages_all_empty pages h)]

/-- Witness for C6: a two-page PDF with empty text on both pages. -/
theorem C6_empty_text_no_failure_witness :
    extract_text_from_pdf (some ["", ""]) = ⟨"", false⟩ :=
  C6_empty_text_no_failure ["", ""] (by decide)

/-- Claim C7: analyze_resume performs no emptiness re-validation: for every
pair of input strings — the empty resume text and the empty job
description included — its result is exactly the handling of the model's
response to the prompt built from those very inputs; no branch rejects an
input before the model is invoked. -/
theorem C7_no_emptiness_check (model : String → ChatPrompt → ModelResponse)
    (resume_text job_description api_key : String) :
    analyze_resume model resume_text job_description api_key
      = handleResponse (model api_key
          (buildPrompt resume_text job_description)) := rfl

/-- Requested output 1 of the human template: the match percentage with
its 0-100 range. -/
def headerMatchPct : String := "1. **Match Percentage** (0-100)"

/-- Requested output 2 of the human template: missing keywords with the
cap of 20. -/
def headerMissingKw : String :=
  "2. **Missing Keywords**: Identify up to 20 critical keywords/skills"

/-- Requested output 3 of the human template: strengths. -/
def headerStrengths : String := "3. **Strengths**"

/-- Requested output 4 of the human template: improvements. -/
def headerImprovements : String := "4. **Improvements**"

/-- Requested output 5 of the human template: the brief 2-3 sentence
overall assessment. -/
def headerOverall : String :=
  "5. **Overall Assessment**: Provide a brief 2-3 sentence summary"

/-- An infix of a list is an infix of any left extension of it. -/
theorem infixExtendLeft {α : Type} (s : List α) {l t : List α}
    (h : l <:+: t) : l <:+: s ++ t :=
  h.trans (List.suffix_append s t).isInfix

/-- A prefix of a list is an infix of any right extension of it. -/
theorem infixExtendRight {α : Type} (s : List α) {l t : List α}
    (h : l <+: t) : l <:+: t ++ s :=
  (h.trans (List.prefix_append t s)).isInfix

/-- The characters of the fixed template tail, segment by segment. -/
theorem humanPart3_data :
    humanPart3.data
      = humanIntro.data ++ (humanReq1.data ++ (humanReq2.data
          ++ (humanReq3.data ++ (humanReq4.data ++ (humanReq5.data
          ++ humanClosing.data))))) := by
  simp only [humanPart3, String.data_append, List.append_assoc]

/-- Requested output 1 occurs in the fixed template tail. -/
theorem headerMatchPct_infix : headerMatchPct.data <:+: humanPart3.data := by
  rw [humanPart3_data]
  exact infixExtendLeft _
    (infixExtendRight _ (show headerMatchPct.data <+: humanReq1.data by decide))

/-- Requested output 2 occurs in the fixed template tail. -/
theorem headerMissingKw_infix : headerMissingKw.data <:+: humanPart3.data := by
  rw [humanPart3_data]
  exact infixExtendLeft _ (infixExtendLeft _
    (infixExtendRight _ (show headerMissingKw.data <+: humanReq2.data by decide)))

/-- Requested output 3 occurs in the fixed template tail. -/
theorem headerStrengths_infix : headerStrengths.data <:+: humanPart3.data := by
  rw [humanPart3_data]
  exact infixExtendLeft _ (infixExtendLeft _ (infixExtendLeft _
    (infixExtendRight _ (show headerStrengths.data <+: humanReq3.data by decide))))

/-- Requested output 4 occurs in the fixed template tail. -/
theorem headerImprovements_infix :
    headerImprovements.data <:+: humanPart3.data := by
  rw [humanPart3_data]
  exact infixExtendLeft _ (infixExtendLeft _ (infixExtendLeft _
    (infixExtendLeft _ (infixExtendRight _
      (show headerImprovements.data <+: humanReq4.data by decide)))))

/-- Requested output 5 occurs in the fixed template tail. -/
theorem headerOverall_infix : headerOverall.data <:+: humanPart3.data := by
  rw [humanPart3_data]
  exact infixExtendLeft _ (infixExtendLeft _ (infixExtendLeft _
    (infixExtendLeft _ (infixExtendLeft _ (infixExtendRight _
      (show headerOverall.data <+: humanReq5.data by decide))))))

/-- Claim C8: the prompt delivered to the model is a fixed two-part
instruction: the system message is the constant ATS-evaluator text
(naming the technical domains), the human message is the fixed template
with exactly the job description and resume text interpolated — so only
those two strings vary between invocations — and the template requests
the five outputs: match percentage 0-100, missing keywords capped at 20,
strengths, improvements, and a brief 2-3 sentence overall assessment. -/
theorem C8_prompt_fixed_two_part (resume_text job_description : String) :
    (buildPrompt resume_text job_description).system = systemMessage
    ∧ (buildPrompt resume_text job_description).human
        = humanPart1 ++ job_description ++ humanPart2 ++ resume_text
            ++ humanPart3
    ∧ headerMatchPct.data <:+: (buildPrompt resume_text job_description).human.data
    ∧ headerMissingKw.data <:+: (buildPrompt resume_text job_description).human.data
    ∧ headerStrengths.data <:+: (buildPrompt resume_text job_description).human.data
    ∧ headerImprovements.data <:+: (buildPrompt resume_text job_description).human.data
    ∧ headerOverall.data <:+: (buildPrompt resume_text job_description).human.data := by
  have hd : (buildPrompt resume_text job_description).human.data
      = (humanPart1 ++ job_description ++ humanPart2 ++ resume_text).data
          ++ humanPart3.data :=
    String.data_append _ _
  refine ⟨rfl, rfl, ?_, ?_, ?_, ?_, ?_⟩ <;> rw [hd]
  · exact infixExtendLeft _ headerMatchPct_infix
  · exact infixExtendLeft _ headerMissingKw_infix
  · exact infixExtendLeft _ headerStrengths_infix
  · exact infixExtendLeft _ headerImprovements_infix
  · exact infixExtendLeft _ headerOverall_infix

/-- Claim C9: the PDF text extraction is total: a read failure anywhere
(the none stream) is caught and yields the empty string together with the
displayed message, and a successful parse yields the stripped page
concatenation — in every case a plain string is returned and nothing
propagates to the caller. -/
theorem C9_total_catches_all :
    extract_text_from_pdf none = ⟨"", true⟩
    ∧ ∀ pages, extract_text_from_pdf (some pages)
        = ⟨pyStrip (combinePages pages), false⟩ :=
  ⟨rfl, fun _ => rfl⟩

/-- Claim C10: in the main flow the analysis call is reachable only with
all inputs present: reaching the analyzed outcome forces a non-empty API
key, a chosen file, a non-empty job description and non-empty extracted
resume text, and the analysis receives exactly those inputs. -/
theorem C10_analysis_gated (api_key : String)
    (uploaded_file : Option (Option (List String)))
    (job_description resume_text jd ak : String)
    (h : mainFlow api_key uploaded_file job_description
        = FlowOutcome.analyzed resume_text jd ak) :
    api_key ≠ "" ∧ uploaded_file ≠ none ∧ job_description ≠ ""
      ∧ resume_text ≠ "" ∧ jd = job_description ∧ ak = api_key := by
  simp only [mainFlow] at h
  split at h
  · exact FlowOutcome.noConfusion h
  · rename_i hak
    split at h
    · exact FlowOutcome.noConfusion h
    · rename_i stream
      split at h
      · exact FlowOutcome.noConfusion h
      · rename_i hjd
        split at h
        · exact FlowOutcome.noConfusion h
        · rename_i hrt
          injection h with h1 h2 h3
          subst h1
          subst h2
          subst h3
          exact ⟨hak, by simp, hjd, hrt, rfl, rfl⟩

/-- A parsed one-page stream used by the C10 witness. -/
def demoStream : Option (List String) := some ["Hello"]

/-- Witness for C10: with all inputs present the flow reaches the analysis
with the extracted text, and the conclusions hold at those inputs. -/
theorem C10_analysis_gated_witness :
    ("key" : String) ≠ ""
      ∧ (some demoStream : Option (Option (List String))) ≠ none
      ∧ ("JD" : String) ≠ "" ∧ ("Hello" : String) ≠ ""
      ∧ ("JD" : String) = "JD" ∧ ("key" : String) = "key" :=
  C10_analysis_gated "key" (some demoStream) "JD" "Hello" "JD" "key"
    (by decide)

end ResumerAI
